import Mathlib

/-!
Shallow embedding of the hvac-research scoring engine and its collaborators.

Sources embedded here:
* src/hvac-research/src/lib/scoring/calculator.ts (scoring engine: component
  scorers, overall score, recommendation, batch scoring)
* src/hvac-research/src/lib/research/pipeline.ts (region-discovery pipeline,
  SCORING stage)
* src/hvac-research/src/components/research/research-jobs.tsx
  (waitForResearchCompletion polling loop)
* src/unnamed/part_009 (TypeScript type definitions)

Modelling conventions:
* JavaScript numbers are modelled as exact rationals (ℚ); integer-valued
  fields (counts, years) as ℕ/ℤ.  Math.round is Mathlib's round
  (round x = ⌊x + 1/2⌋, which matches JS round-half-up toward +∞).
* Nullable fields are Option; JS truthiness of strings/numbers (empty string
  and 0 are falsy) is modelled explicitly by the jsTruthy helpers.
* The current wall-clock date (new Date()) is threaded explicitly as a Clock
  value carrying the epoch milliseconds, the calendar year, and the epoch
  milliseconds of the same date one year earlier (setFullYear(year-1)).
* The database is modelled as a lookup function String → Option Business;
  the persistence step of calculateBusinessScore (prisma upsert) is the
  collaborator boundary and is not part of the scoring computation.
* Only the fields that the embedded code reads are modelled on each record
  type; the TypeScript interfaces carry further fields (ids, timestamps,
  addresses, ...) that no embedded function inspects.
* Number.toFixed(d) (used only inside explanation strings) is modelled as
  rounding half away from zero at d decimal places; decimal rendering of
  non-integer rationals elsewhere is modelled by Rat.toString.
-/

-- ===========================================================================
-- Data model (src/unnamed/part_009)
-- ===========================================================================

/-- Recommendation tier, from the Recommendation union type. -/
inductive Recommendation where
  | HIGH_PRIORITY
  | MEDIUM_PRIORITY
  | LOW_PRIORITY
  | NOT_RECOMMENDED
  deriving DecidableEq, Repr

/-- The value field of a ScoreFactor mixes numbers and strings in the source
(number | string | boolean); the embedded code only ever stores numbers and
strings there. -/
inductive FactorValue where
  | num (n : ℚ)
  | str (s : String)
  deriving DecidableEq, Repr

/-- ScoreFactor from the type definitions: one named input to a component
score with its own weight and explanation. -/
structure ScoreFactor where
  name : String
  value : FactorValue
  score : ℚ
  weight : ℚ
  explanation : String
  deriving DecidableEq, Repr

/-- ComponentScore (calculator.ts): the rounded 0-100 component score plus
its factor breakdown. -/
structure ComponentScore where
  score : ℤ
  factors : List ScoreFactor
  deriving DecidableEq, Repr

/-- FactorConfig from the type definitions (the per-component factor weight
tables of a ScoringConfig). -/
structure FactorConfig where
  name : String
  weight : ℚ
  scorer : String
  deriving DecidableEq, Repr

/-- The weights block of a ScoringConfig. -/
structure ScoringWeights where
  revenueProxy : ℚ
  onlineWeakness : ℚ
  acquisitionFit : ℚ
  growthSignals : ℚ
  deriving DecidableEq, Repr

/-- The thresholds block of a ScoringConfig. -/
structure ScoringThresholds where
  highPriority : ℚ
  mediumPriority : ℚ
  lowPriority : ℚ
  deriving DecidableEq, Repr

/-- The factors block of a ScoringConfig: one factor table per component. -/
structure ScoringFactorTables where
  revenueProxy : List FactorConfig
  onlineWeakness : List FactorConfig
  acquisitionFit : List FactorConfig
  growthSignals : List FactorConfig
  deriving DecidableEq, Repr

/-- ScoringConfig from the type definitions. -/
structure ScoringConfig where
  version : String
  weights : ScoringWeights
  thresholds : ScoringThresholds
  factors : ScoringFactorTables
  deriving DecidableEq, Repr

/-- DEFAULT_SCORING_CONFIG from calculator.ts, reproduced exactly. -/
def DEFAULT_SCORING_CONFIG : ScoringConfig :=
  { version := "1.0"
    weights :=
      { revenueProxy := 0.30
        onlineWeakness := 0.25
        acquisitionFit := 0.25
        growthSignals := 0.20 }
    thresholds :=
      { highPriority := 75
        mediumPriority := 50
        lowPriority := 25 }
    factors :=
      { revenueProxy :=
          [ { name := "employeeCount", weight := 0.30, scorer := "employeeScorer" }
          , { name := "fleetSize", weight := 0.25, scorer := "fleetScorer" }
          , { name := "permitVolume", weight := 0.25, scorer := "permitScorer" }
          , { name := "serviceArea", weight := 0.20, scorer := "serviceAreaScorer" } ]
        onlineWeakness :=
          [ { name := "websiteQuality", weight := 0.30, scorer := "websiteScorer" }
          , { name := "socialPresence", weight := 0.20, scorer := "socialScorer" }
          , { name := "reviewVolume", weight := 0.30, scorer := "reviewVolumeScorer" }
          , { name := "seoVisibility", weight := 0.20, scorer := "seoScorer" } ]
        acquisitionFit :=
          [ { name := "ownershipType", weight := 0.30, scorer := "ownershipScorer" }
          , { name := "businessAge", weight := 0.25, scorer := "ageScorer" }
          , { name := "nicheSpecialization", weight := 0.25, scorer := "nicheScorer" }
          , { name := "successionStatus", weight := 0.20, scorer := "successionScorer" } ]
        growthSignals :=
          [ { name := "permitTrend", weight := 0.35, scorer := "permitTrendScorer" }
          , { name := "reviewTrend", weight := 0.25, scorer := "reviewTrendScorer" }
          , { name := "hiringActivity", weight := 0.25, scorer := "hiringScorer" }
          , { name := "fleetGrowth", weight := 0.15, scorer := "fleetGrowthScorer" } ] } }

/-- Employee estimate record; the scorer reads only estimatedCount. -/
structure EmployeeEstimate where
  estimatedCount : ℕ
  deriving DecidableEq, Repr

/-- Fleet estimate record; the scorer reads only vehicleCount. -/
structure FleetEstimate where
  vehicleCount : ℕ
  deriving DecidableEq, Repr

/-- Abstraction of a JS Date value: its epoch milliseconds (used for order
comparisons between dates) and its calendar year (getFullYear()). -/
structure CalDate where
  ms : ℤ
  year : ℤ
  deriving DecidableEq, Repr

/-- Permit record; the scorer reads only issueDate (nullable). -/
structure Permit where
  issueDate : Option CalDate
  deriving DecidableEq, Repr

/-- Review record; the scorer reads rating and reviewCount. -/
structure Review where
  rating : ℚ
  reviewCount : ℕ
  deriving DecidableEq, Repr

/-- The value of new Date() at scoring time: epoch ms, calendar year, and
the epoch ms of the same date one calendar year earlier (the value produced
by setFullYear(getFullYear() - 1) in the permit-volume filter). -/
structure Clock where
  ms : ℤ
  year : ℤ
  msOneYearAgo : ℤ
  deriving DecidableEq, Repr

/-- Business with the relations the scorer reads (BusinessWithRelations).
ownershipType and successionStatus are string enums in the source and are
compared by string equality, so they are modelled as Option String. -/
structure Business where
  serviceRadius : Option ℚ := none
  website : Option String := none
  facebookUrl : Option String := none
  linkedinUrl : Option String := none
  instagramUrl : Option String := none
  niches : List String := []
  ownershipType : Option String := none
  ownerAge : Option ℕ := none
  foundedYear : Option ℤ := none
  successionStatus : Option String := none
  permits : List Permit := []
  reviews : List Review := []
  employees : List EmployeeEstimate := []
  fleet : List FleetEstimate := []
  deriving DecidableEq, Repr

-- ===========================================================================
-- JS truthiness helpers
-- ===========================================================================

/-- Truthiness of a nullable JS string: null/undefined and "" are falsy. -/
def jsTruthyStr (o : Option String) : Bool :=
  match o with
  | some s => ! s.isEmpty
  | none => false

/-- Truthiness of a nullable JS non-negative number: null/undefined and 0 are
falsy. -/
def jsTruthyNat (o : Option ℕ) : Bool :=
  match o with
  | some n => n != 0
  | none => false

/-- Truthiness of a nullable JS integer: null/undefined and 0 are falsy. -/
def jsTruthyInt (o : Option ℤ) : Bool :=
  match o with
  | some n => n != 0
  | none => false

/-- String.prototype.toLowerCase, modelled characterwise on the string's
character list. -/
def jsToLowerCase (s : String) : String :=
  String.mk (s.data.map Char.toLower)

/-- Number.toFixed(0): round half away from zero (negative values format the
negated absolute value behind a minus sign). -/
def jsToFixed0 (q : ℚ) : String :=
  if q < 0 then "-" ++ toString (round (-q)) else toString (round q)

/-- Digits of Number.toFixed(1) on a non-negative rational. -/
def jsToFixed1Abs (q : ℚ) : String :=
  let n := round (q * 10)
  toString (n / 10) ++ "." ++ toString (n % 10)

/-- Number.toFixed(1): round half away from zero at one decimal place. -/
def jsToFixed1 (q : ℚ) : String :=
  if q < 0 then "-" ++ jsToFixed1Abs (-q) else jsToFixed1Abs q

-- ===========================================================================
-- Derived inputs read from a Business (calculator.ts)
-- ===========================================================================

/-- business.employees?.[0]?.estimatedCount || 0 -/
def employeeCountOf (b : Business) : ℕ :=
  match b.employees.head? with
  | some e => e.estimatedCount
  | none => 0

/-- business.fleet?.[0]?.vehicleCount || 0 -/
def fleetSizeOf (b : Business) : ℕ :=
  match b.fleet.head? with
  | some f => f.vehicleCount
  | none => 0

/-- Permits with an issueDate on or after one year before now
(business.permits?.filter(issueDate >= oneYearAgo).length || 0). -/
def recentPermitCount (clock : Clock) (b : Business) : ℕ :=
  (b.permits.filter (fun p =>
    match p.issueDate with
    | some d => decide (clock.msOneYearAgo ≤ d.ms)
    | none => false)).length

/-- Permits whose issueDate falls in calendar year y
(p.issueDate && getFullYear() === y). -/
def permitCountInYear (b : Business) (y : ℤ) : ℕ :=
  (b.permits.filter (fun p =>
    match p.issueDate with
    | some d => d.year == y
    | none => false)).length

/-- business.serviceRadius || 0 -/
def serviceRadiusOf (b : Business) : ℚ :=
  b.serviceRadius.getD 0

/-- Sum of reviewCount across all review records. -/
def totalReviewsOf (b : Business) : ℕ :=
  (b.reviews.map Review.reviewCount).sum

/-- Average rating across review records, 0 when there are none. -/
def avgRatingOf (b : Business) : ℚ :=
  if b.reviews.length > 0 then
    (b.reviews.map Review.rating).sum / (b.reviews.length : ℚ)
  else 0

/-- business.foundedYear ? currentYear - business.foundedYear : 0 -/
def yearsInBusinessOf (clock : Clock) (b : Business) : ℤ :=
  if jsTruthyInt b.foundedYear then clock.year - b.foundedYear.getD 0 else 0

-- ===========================================================================
-- Factor score functions (calculator.ts, inline if-chains of each scorer)
-- ===========================================================================

/-- Employee-count factor score (5-50 ideal, peak at 25). -/
def employeeScoreOf (employeeCount : ℕ) : ℚ :=
  if 5 ≤ employeeCount ∧ employeeCount ≤ 50 then
    100 - |(employeeCount : ℚ) - 25| * 2
  else if 50 < employeeCount ∧ employeeCount ≤ 100 then 50
  else if 0 < employeeCount ∧ employeeCount < 5 then (employeeCount : ℚ) * 15
  else 0

/-- Fleet-size factor score (3-20 ideal, peak at 10). -/
def fleetScoreOf (fleetSize : ℕ) : ℚ :=
  if 3 ≤ fleetSize ∧ fleetSize ≤ 20 then
    100 - |(fleetSize : ℚ) - 10| * 5
  else if 20 < fleetSize ∧ fleetSize ≤ 40 then 60
  else if 0 < fleetSize ∧ fleetSize < 3 then (fleetSize : ℚ) * 25
  else 0

/-- Permit-volume factor score (50-400/year ideal). -/
def permitScoreOf (recentPermits : ℕ) : ℚ :=
  if 50 ≤ recentPermits ∧ recentPermits ≤ 400 then
    80 + (if 100 ≤ recentPermits ∧ recentPermits ≤ 300 then 20 else 0)
  else if 400 < recentPermits then 60
  else if 0 < recentPermits then min ((recentPermits : ℚ) * (3/2)) 75
  else 0

/-- Service-area factor score (default 50 when unknown or non-positive). -/
def serviceAreaScoreOf (serviceRadius : ℚ) : ℚ :=
  if 0 < serviceRadius then
    if 20 ≤ serviceRadius ∧ serviceRadius ≤ 75 then 90
    else if 75 < serviceRadius then 70
    else serviceRadius * 3
  else 50

/-- Website-quality factor score: no website is maximal weakness. -/
def websiteScoreOf (hasWebsite : Bool) : ℚ :=
  if hasWebsite then 50 else 100

/-- Social-presence factor score. -/
def socialScoreOf (hasSocial : Bool) : ℚ :=
  if hasSocial then 40 else 90

/-- Review-volume factor score: fewer reviews means higher weakness. -/
def reviewVolumeScoreOf (totalReviews : ℕ) : ℚ :=
  if 100 ≤ totalReviews then 20
  else if 50 ≤ totalReviews then 40
  else if 20 ≤ totalReviews then 60
  else if 10 ≤ totalReviews then 75
  else 90

/-- SEO-visibility factor score (estimated from web presence). -/
def seoScoreOf (hasWebsite : Bool) : ℚ :=
  if hasWebsite then 50 else 85

/-- Ownership-type factor score. -/
def ownershipScoreOf (ownershipType : Option String) : ℚ :=
  if ownershipType = some "FAMILY_OWNED" then 100
  else if ownershipType = some "FRANCHISE" then 30
  else if ownershipType = some "PRIVATE_EQUITY" then 10
  else if ownershipType = some "CORPORATE" then 20
  else 50

/-- Business-age factor score (10-30 years ideal). -/
def ageScoreOf (yearsInBusiness : ℤ) : ℚ :=
  if 10 ≤ yearsInBusiness ∧ yearsInBusiness ≤ 30 then 100
  else if 30 < yearsInBusiness ∧ yearsInBusiness ≤ 50 then 80
  else if 5 ≤ yearsInBusiness ∧ yearsInBusiness < 10 then 70
  else if 50 < yearsInBusiness then 60
  else if 0 < yearsInBusiness then (yearsInBusiness : ℚ) * 10
  else 50

/-- The fixed allow-list of premium niches in the niche scorer. -/
def premiumNiches : List String :=
  ["refrigeration", "clean_rooms", "industrial", "restaurants"]

/-- Niche-specialization factor score: the source tests
premiumNiches.includes(n.toLowerCase()), an exact match on the lowercased
tag. -/
def nicheScoreOf (niches : List String) : ℚ :=
  if niches.length > 0 then
    if niches.any (fun n => premiumNiches.contains (jsToLowerCase n)) then 100 else 80
  else 50

/-- The status-derived base of the succession factor score. -/
def successionBase (successionStatus : Option String) : ℚ :=
  if successionStatus = some "OWNER_RETIRING" then 100
  else if successionStatus = some "NO_SUCCESSOR" then 90
  else if successionStatus = some "SUCCESSION_PLANNED" then 40
  else if successionStatus = some "RECENTLY_TRANSITIONED" then 20
  else 50

/-- Succession factor score: status base, raised by max with an owner-age
proxy when ownerAge is truthy. -/
def successionScoreOf (successionStatus : Option String) (ownerAge : Option ℕ) : ℚ :=
  let base := successionBase successionStatus
  if jsTruthyNat ownerAge then
    let a := ownerAge.getD 0
    if 60 ≤ a then max base 85
    else if 55 ≤ a then max base 70
    else base
  else base

/-- The owner-age floor that the succession scorer raises the base to:
85 for age 60 and above, 70 for age 55-59, no floor otherwise (an ownerAge
of 0 is falsy in the source and applies no floor). -/
def ownerAgeFloor (ownerAge : Option ℕ) : ℚ :=
  match ownerAge with
  | some a => if a = 0 then 0 else if 60 ≤ a then 85 else if 55 ≤ a then 70 else 0
  | none => 0

/-- Permit-trend factor score: year-over-year growth of permit counts,
default 60 when there is no prior-year history. -/
def permitTrendScoreOf (thisYearPermits lastYearPermits : ℕ) : ℚ :=
  if 0 < lastYearPermits then
    let growth : ℚ := ((thisYearPermits : ℚ) - (lastYearPermits : ℚ)) / (lastYearPermits : ℚ)
    if (1/5 : ℚ) ≤ growth then 100
    else if (1/10 : ℚ) ≤ growth then 85
    else if 0 ≤ growth then 70
    else if (-(1/10) : ℚ) ≤ growth then 50
    else 30
  else 60

/-- Review-trend factor score: proxied by the current average rating. -/
def reviewTrendScoreOf (avgRating : ℚ) : ℚ :=
  if (9/2 : ℚ) ≤ avgRating then 90
  else if 4 ≤ avgRating then 75
  else if (7/2 : ℚ) ≤ avgRating then 60
  else if 0 < avgRating then 40
  else 60

-- ===========================================================================
-- Explanation helpers (calculator.ts)
-- ===========================================================================

/-- getEmployeeExplanation -/
def getEmployeeExplanation (count : ℕ) : String :=
  if 5 ≤ count ∧ count ≤ 50 then
    toString count ++ " employees - ideal range for $1-10M revenue"
  else if 50 < count then toString count ++ " employees - may be larger than target"
  else if 0 < count then toString count ++ " employees - smaller operation"
  else "Employee count unknown"

/-- getFleetExplanation -/
def getFleetExplanation (count : ℕ) : String :=
  if 3 ≤ count ∧ count ≤ 20 then
    toString count ++ " vehicles - typical for target range"
  else if 20 < count then toString count ++ " vehicles - larger operation"
  else if 0 < count then toString count ++ " vehicles - smaller fleet"
  else "Fleet size unknown"

/-- getOwnershipExplanation -/
def getOwnershipExplanation (ownershipType : Option String) : String :=
  if ownershipType = some "FAMILY_OWNED" then "Family-owned - ideal acquisition target"
  else if ownershipType = some "FRANCHISE" then "Franchise - may have transfer restrictions"
  else if ownershipType = some "PRIVATE_EQUITY" then "PE-owned - likely not available"
  else if ownershipType = some "CORPORATE" then "Corporate - may be part of larger org"
  else "Ownership type unknown"

/-- getSuccessionExplanation -/
def getSuccessionExplanation (status : Option String) (ownerAge : Option ℕ) : String :=
  let ageInfo :=
    if jsTruthyNat ownerAge then " (owner age: " ++ toString (ownerAge.getD 0) ++ ")"
    else ""
  if status = some "OWNER_RETIRING" then
    "Owner retiring - high acquisition potential" ++ ageInfo
  else if status = some "NO_SUCCESSOR" then
    "No successor identified - good opportunity" ++ ageInfo
  else if status = some "SUCCESSION_PLANNED" then
    "Succession planned - may not be available" ++ ageInfo
  else if status = some "RECENTLY_TRANSITIONED" then
    "Recently transitioned - unlikely to sell" ++ ageInfo
  else if jsTruthyNat ownerAge then
    "Succession unknown (owner age: " ++ toString (ownerAge.getD 0) ++ ")"
  else "Succession status unknown"

/-- getPermitTrendExplanation -/
def getPermitTrendExplanation (current previous : ℕ) : String :=
  if previous = 0 then "No historical permit data"
  else
    let growth : ℚ := (((current : ℚ) - (previous : ℚ)) / (previous : ℚ)) * 100
    if 20 ≤ growth then "Strong growth: " ++ jsToFixed0 growth ++ "% increase"
    else if 10 ≤ growth then "Moderate growth: " ++ jsToFixed0 growth ++ "% increase"
    else if 0 ≤ growth then "Stable: " ++ jsToFixed0 growth ++ "% change"
    else if -10 ≤ growth then "Slight decline: " ++ jsToFixed0 growth ++ "% change"
    else "Declining: " ++ jsToFixed0 growth ++ "% decrease"

-- ===========================================================================
-- Factor records, as pushed by each component scorer
-- ===========================================================================

/-- Employee Count factor of the Revenue Proxy component. -/
def employeeFactor (b : Business) : ScoreFactor :=
  let employeeCount := employeeCountOf b
  { name := "Employee Count"
    value := .num (employeeCount : ℚ)
    score := employeeScoreOf employeeCount
    weight := 0.30
    explanation := getEmployeeExplanation employeeCount }

/-- Fleet Size factor of the Revenue Proxy component. -/
def fleetFactor (b : Business) : ScoreFactor :=
  let fleetSize := fleetSizeOf b
  { name := "Fleet Size"
    value := .num (fleetSize : ℚ)
    score := fleetScoreOf fleetSize
    weight := 0.25
    explanation := getFleetExplanation fleetSize }

/-- Permit Volume factor of the Revenue Proxy component. -/
def permitVolumeFactor (clock : Clock) (b : Business) : ScoreFactor :=
  let recentPermits := recentPermitCount clock b
  { name := "Permit Volume"
    value := .num (recentPermits : ℚ)
    score := permitScoreOf recentPermits
    weight := 0.25
    explanation := toString recentPermits ++ " permits in last 12 months" }

/-- Service Area factor of the Revenue Proxy component. -/
def serviceAreaFactor (b : Business) : ScoreFactor :=
  let serviceRadius := serviceRadiusOf b
  { name := "Service Area"
    value := if serviceRadius != 0 then .num serviceRadius else .str "Unknown"
    score := serviceAreaScoreOf serviceRadius
    weight := 0.20
    explanation :=
      if serviceRadius != 0 then toString serviceRadius ++ " mile service radius"
      else "Service area unknown" }

/-- Website Quality factor of the Online Weakness component. -/
def websiteFactor (b : Business) : ScoreFactor :=
  let hasWebsite := jsTruthyStr b.website
  { name := "Website Quality"
    value := .str (if hasWebsite then b.website.getD "" else "None")
    score := websiteScoreOf hasWebsite
    weight := 0.30
    explanation :=
      if hasWebsite then "Website exists (quality unknown)" else "No website found" }

/-- Social Presence factor of the Online Weakness component. -/
def socialFactor (b : Business) : ScoreFactor :=
  let hasSocial :=
    jsTruthyStr b.facebookUrl || jsTruthyStr b.linkedinUrl || jsTruthyStr b.instagramUrl
  { name := "Social Presence"
    value := .str (if hasSocial then "Present" else "None")
    score := socialScoreOf hasSocial
    weight := 0.20
    explanation :=
      if hasSocial then "Some social media presence" else "No social media found" }

/-- Review Volume factor of the Online Weakness component. -/
def reviewVolumeFactor (b : Business) : ScoreFactor :=
  let totalReviews := totalReviewsOf b
  { name := "Review Volume"
    value := .num (totalReviews : ℚ)
    score := reviewVolumeScoreOf totalReviews
    weight := 0.30
    explanation := toString totalReviews ++ " total reviews across platforms" }

/-- SEO Visibility factor of the Online Weakness component. -/
def seoFactor (b : Business) : ScoreFactor :=
  { name := "SEO Visibility"
    value := .str "Estimated"
    score := seoScoreOf (jsTruthyStr b.website)
    weight := 0.20
    explanation := "SEO visibility estimated from web presence" }

/-- Ownership Type factor of the Acquisition Fit component. -/
def ownershipFactor (b : Business) : ScoreFactor :=
  { name := "Ownership Type"
    value := .str (if jsTruthyStr b.ownershipType then b.ownershipType.getD "" else "Unknown")
    score := ownershipScoreOf b.ownershipType
    weight := 0.30
    explanation := getOwnershipExplanation b.ownershipType }

/-- Business Age factor of the Acquisition Fit component. -/
def businessAgeFactor (clock : Clock) (b : Business) : ScoreFactor :=
  let yearsInBusiness := yearsInBusinessOf clock b
  { name := "Business Age"
    value := if yearsInBusiness != 0 then .num (yearsInBusiness : ℚ) else .str "Unknown"
    score := ageScoreOf yearsInBusiness
    weight := 0.25
    explanation :=
      if yearsInBusiness != 0 then toString yearsInBusiness ++ " years in business"
      else "Age unknown" }

/-- Niche Specialization factor of the Acquisition Fit component. -/
def nicheFactor (b : Business) : ScoreFactor :=
  { name := "Niche Specialization"
    value := .str (if b.niches.length > 0 then String.intercalate ", " b.niches else "General")
    score := nicheScoreOf b.niches
    weight := 0.25
    explanation :=
      if b.niches.length > 0 then "Specializes in " ++ String.intercalate ", " b.niches
      else "General HVAC services" }

/-- Succession Status factor of the Acquisition Fit component. -/
def successionFactor (b : Business) : ScoreFactor :=
  { name := "Succession Status"
    value := .str (if jsTruthyStr b.successionStatus then b.successionStatus.getD "" else "Unknown")
    score := successionScoreOf b.successionStatus b.ownerAge
    weight := 0.20
    explanation := getSuccessionExplanation b.successionStatus b.ownerAge }

/-- Permit Trend factor of the Growth Signals component. -/
def permitTrendFactor (clock : Clock) (b : Business) : ScoreFactor :=
  let thisYearPermits := permitCountInYear b clock.year
  let lastYearPermits := permitCountInYear b (clock.year - 1)
  { name := "Permit Trend"
    value := .str (toString thisYearPermits ++ " this year vs " ++
      toString lastYearPermits ++ " last year")
    score := permitTrendScoreOf thisYearPermits lastYearPermits
    weight := 0.35
    explanation := getPermitTrendExplanation thisYearPermits lastYearPermits }

/-- Review Trend factor of the Growth Signals component. -/
def reviewTrendFactor (b : Business) : ScoreFactor :=
  let avgRating := avgRatingOf b
  { name := "Review Trend"
    value := .str (if 0 < avgRating then jsToFixed1 avgRating else "No data")
    score := reviewTrendScoreOf avgRating
    weight := 0.25
    explanation :=
      if 0 < avgRating then jsToFixed1 avgRating ++ " average rating"
      else "No review data" }

/-- Hiring Activity factor of the Growth Signals component (fixed neutral
placeholder in the source). -/
def hiringFactor : ScoreFactor :=
  { name := "Hiring Activity"
    value := .str "Unknown"
    score := 60
    weight := 0.25
    explanation := "Hiring activity data not available" }

/-- Fleet Growth factor of the Growth Signals component (fixed neutral
placeholder in the source). -/
def fleetGrowthFactor : ScoreFactor :=
  { name := "Fleet Growth"
    value := .str "Unknown"
    score := 60
    weight := 0.15
    explanation := "Fleet growth data not available" }

-- ===========================================================================
-- Component scorers (calculator.ts)
-- ===========================================================================

/-- factors.reduce((sum, f) => sum + f.score * f.weight, 0) -/
def weightedFactorTotal (factors : List ScoreFactor) : ℚ :=
  factors.foldl (fun sum f => sum + f.score * f.weight) 0

/-- calculateRevenueProxyScore.  The config parameter is accepted (as in the
source signature) but never read by the body. -/
def calculateRevenueProxyScore (clock : Clock) (b : Business)
    (config : ScoringConfig) : ComponentScore :=
  let factors := [employeeFactor b, fleetFactor b, permitVolumeFactor clock b,
    serviceAreaFactor b]
  { score := round (weightedFactorTotal factors), factors := factors }

/-- calculateOnlineWeaknessScore.  The config parameter is accepted but never
read by the body. -/
def calculateOnlineWeaknessScore (b : Business)
    (config : ScoringConfig) : ComponentScore :=
  let factors := [websiteFactor b, socialFactor b, reviewVolumeFactor b, seoFactor b]
  { score := round (weightedFactorTotal factors), factors := factors }

/-- calculateAcquisitionFitScore.  The config parameter is accepted but never
read by the body. -/
def calculateAcquisitionFitScore (clock : Clock) (b : Business)
    (config : ScoringConfig) : ComponentScore :=
  let factors := [ownershipFactor b, businessAgeFactor clock b, nicheFactor b,
    successionFactor b]
  { score := round (weightedFactorTotal factors), factors := factors }

/-- calculateGrowthSignalsScore.  The config parameter is accepted but never
read by the body. -/
def calculateGrowthSignalsScore (clock : Clock) (b : Business)
    (config : ScoringConfig) : ComponentScore :=
  let factors := [permitTrendFactor clock b, reviewTrendFactor b, hiringFactor,
    fleetGrowthFactor]
  { score := round (weightedFactorTotal factors), factors := factors }

-- ===========================================================================
-- Overall score, recommendation, Score record (calculator.ts)
-- ===========================================================================

/-- getRecommendation: successive inclusive threshold comparison. -/
def getRecommendation (score : ℚ) (config : ScoringConfig) : Recommendation :=
  if config.thresholds.highPriority ≤ score then .HIGH_PRIORITY
  else if config.thresholds.mediumPriority ≤ score then .MEDIUM_PRIORITY
  else if config.thresholds.lowPriority ≤ score then .LOW_PRIORITY
  else .NOT_RECOMMENDED

/-- ScoreBreakdown from the type definitions. -/
structure ScoreBreakdown where
  revenueProxy : ComponentScore
  onlineWeakness : ComponentScore
  acquisitionFit : ComponentScore
  growthSignals : ComponentScore
  deriving DecidableEq, Repr

/-- Score from the type definitions (the fields computed and stored by
calculateBusinessScore; DB-generated timestamps are omitted). -/
structure Score where
  id : String
  businessId : String
  revenueProxyScore : ℤ
  onlineWeaknessScore : ℤ
  acquisitionFitScore : ℤ
  growthSignalsScore : ℤ
  overallScore : ℤ
  recommendation : Recommendation
  breakdown : ScoreBreakdown
  configVersion : String
  deriving DecidableEq, Repr

/-- The pure scoring computation of calculateBusinessScore on an
already-fetched business (the calculateScore contract of the spec). -/
def calculateScore (clock : Clock) (businessId : String) (b : Business)
    (config : ScoringConfig) : Score :=
  let revenueProxyScore := calculateRevenueProxyScore clock b config
  let onlineWeaknessScore := calculateOnlineWeaknessScore b config
  let acquisitionFitScore := calculateAcquisitionFitScore clock b config
  let growthSignalsScore := calculateGrowthSignalsScore clock b config
  let overallScore := round (
    (revenueProxyScore.score : ℚ) * config.weights.revenueProxy +
    (onlineWeaknessScore.score : ℚ) * config.weights.onlineWeakness +
    (acquisitionFitScore.score : ℚ) * config.weights.acquisitionFit +
    (growthSignalsScore.score : ℚ) * config.weights.growthSignals)
  { id := businessId ++ "_latest"
    businessId := businessId
    revenueProxyScore := revenueProxyScore.score
    onlineWeaknessScore := onlineWeaknessScore.score
    acquisitionFitScore := acquisitionFitScore.score
    growthSignalsScore := growthSignalsScore.score
    overallScore := overallScore
    recommendation := getRecommendation (overallScore : ℚ) config
    breakdown :=
      { revenueProxy := revenueProxyScore
        onlineWeakness := onlineWeaknessScore
        acquisitionFit := acquisitionFitScore
        growthSignals := growthSignalsScore }
    configVersion := config.version }

/-- calculateBusinessScore: fetch the business from the store (modelled as a
lookup function), failing when it is absent, then score it.  The prisma
upsert persists exactly the returned Score and is the collaborator
boundary. -/
def calculateBusinessScore (store : String → Option Business) (clock : Clock)
    (businessId : String) (config : ScoringConfig) : Except String Score :=
  match store businessId with
  | none => .error ("Business not found: " ++ businessId)
  | some b => .ok (calculateScore clock businessId b config)

/-- batchScoreBusinesses: sequential loop, pushing each successful score and
skipping (after logging) any id whose scoring throws. -/
def batchScoreBusinesses (store : String → Option Business) (clock : Clock)
    (config : ScoringConfig) : List String → List Score
  | [] => []
  | businessId :: rest =>
    match calculateBusinessScore store clock businessId config with
    | .ok s => s :: batchScoreBusinesses store clock config rest
    | .error _ => batchScoreBusinesses store clock config rest

-- ===========================================================================
-- Pipeline orchestrator, SCORING stage (pipeline.ts)
-- ===========================================================================

/-- Pipeline stages of runRegionDiscoveryPipeline. -/
inductive PipelineStage where
  | INIT
  | DISCOVERY
  | EXTRACTION
  | VALIDATION
  | STORAGE
  | SCORING
  | COMPLETE
  | ERROR
  deriving DecidableEq, Repr

/-- Observable trace of the scoring phase of a pipeline run: the
(stage, progress) checkpoints it publishes, the business ids for which it
invokes the scoring engine (calculateBusinessScore), in order, and the value
it records in result.stats.scored. -/
structure ScoringStageTrace where
  progressUpdates : List (PipelineStage × ℕ)
  scoringEngineCalls : List String
  scoredStat : ℕ
  deriving DecidableEq, Repr

/-- The tail of runRegionDiscoveryPipeline after the STORAGE stage, given the
ids of the newly stored businesses.  The source publishes the SCORING
checkpoint (progress 90), then - per its own note that scoring will be
implemented in Phase 4 and that for now businesses are only marked as needing
scores - performs no scoring-engine call at all, sets
result.stats.scored = storedBusinessIds.length, and publishes the COMPLETE
checkpoint (progress 100). -/
def pipelineScoringPhase (storedBusinessIds : List String) : ScoringStageTrace :=
  { progressUpdates := [(PipelineStage.SCORING, 90), (PipelineStage.COMPLETE, 100)]
    scoringEngineCalls := []
    scoredStat := storedBusinessIds.length }

-- ===========================================================================
-- Research-completion polling (research-jobs.tsx)
-- ===========================================================================

/-- Status of a deep-research task (ResearchResult.status). -/
inductive RStatus where
  | pending
  | in_progress
  | completed
  | failed
  deriving DecidableEq, Repr

/-- ResearchResult from research-jobs.tsx (the fields the polling loop reads
or produces; sources and usage are never inspected by the loop). -/
structure ResearchResult where
  id : String
  status : RStatus
  output : Option String := none
  error : Option String := none
  deriving DecidableEq, Repr

/-- The result returned when the maximum total wait elapses: status failed,
a timeout error, and no output field (no partial-result salvage). -/
def researchTimeoutResult (responseId : String) : ResearchResult :=
  { id := responseId, status := .failed, output := none, error := some "Research timed out" }

/-- result.status === completed || result.status === failed -/
def isTerminal (r : ResearchResult) : Bool :=
  match r.status with
  | .completed => true
  | .failed => true
  | _ => false

/-- The while-loop of waitForResearchCompletion.  getResearchStatus is
modelled as an oracle poll giving the result of the k-th status check; the
status check itself is treated as instantaneous, so the elapsed time at the
top of each iteration is the sum of the sleeps performed so far.  fuel bounds
the number of iterations; the TS loop needs no such bound because its elapsed
wall-clock time strictly grows, and the exhausted-fuel branch returns the
same timeout result as the loop's normal exit. -/
def waitLoop (poll : ℕ → ResearchResult) (responseId : String)
    (maxWaitMs maxDelayMs : ℚ) (elapsed delay : ℚ) (k fuel : ℕ) : ResearchResult :=
  match fuel with
  | 0 => researchTimeoutResult responseId
  | fuel' + 1 =>
    if elapsed < maxWaitMs then
      let result := poll k
      if isTerminal result then result
      else
        waitLoop poll responseId maxWaitMs maxDelayMs (elapsed + delay)
          (min (delay * (3/2)) maxDelayMs) (k + 1) fuel'
    else researchTimeoutResult responseId

/-- waitForResearchCompletion: poll with exponential backoff starting at
initialDelayMs, growing by a factor 1.5 per check, capped at maxDelayMs,
returning a terminal result as soon as one is observed and a timeout failure
once maxWaitMs has elapsed. -/
def waitForResearchCompletion (poll : ℕ → ResearchResult) (responseId : String)
    (maxWaitMs initialDelayMs maxDelayMs : ℚ) (fuel : ℕ) : ResearchResult :=
  waitLoop poll responseId maxWaitMs maxDelayMs 0 initialDelayMs 0 fuel

/-- Default maxWaitMs of waitForResearchCompletion (30 minutes). -/
def defaultMaxWaitMs : ℚ := 30 * 60 * 1000

/-- Default initialDelayMs of waitForResearchCompletion. -/
def defaultInitialDelayMs : ℚ := 5000

/-- Default maxDelayMs of waitForResearchCompletion. -/
def defaultMaxDelayMs : ℚ := 60000

/-- The delay slept after the k-th status check: initialDelayMs at first,
then multiplied by 1.5 and capped at maxDelayMs after each check. -/
def delaySeq (initialDelayMs maxDelayMs : ℚ) : ℕ → ℚ
  | 0 => initialDelayMs
  | k + 1 => min (delaySeq initialDelayMs maxDelayMs k * (3/2)) maxDelayMs

/-- Total time slept before the k-th status check. -/
def elapsedBefore (initialDelayMs maxDelayMs : ℚ) : ℕ → ℚ
  | 0 => 0
  | k + 1 => elapsedBefore initialDelayMs maxDelayMs k + delaySeq initialDelayMs maxDelayMs k

-- ===========================================================================
-- Concrete example inputs (used by the witnesses below)
-- ===========================================================================

/-- Concrete scoring-time clock: an instant in calendar year 2025. -/
def exampleClock : Clock :=
  { ms := 1760000000000, year := 2025, msOneYearAgo := 1728464000000 }

/-- Concrete store holding businesses under ids a and c only. -/
def exampleStore : String → Option Business :=
  fun businessId => if businessId = "a" ∨ businessId = "c" then some {} else none

/-- DEFAULT_SCORING_CONFIG with all four factor weight tables replaced, for
exercising factor-table independence. -/
def altFactorsConfig : ScoringConfig :=
  { DEFAULT_SCORING_CONFIG with
    factors :=
      { revenueProxy := []
        onlineWeakness := []
        acquisitionFit := [ { name := "other", weight := 1, scorer := "otherScorer" } ]
        growthSignals := [] } }

/-- Concrete poll oracle: pending on the first check, completed on the
second. -/
def examplePoll : ℕ → ResearchResult :=
  fun k =>
    if k = 1 then { id := "r1", status := .completed, output := some "done", error := none }
    else { id := "r1", status := .pending, output := none, error := none }

/-- Concrete poll oracle that never reaches a terminal status. -/
def examplePendingPoll : ℕ → ResearchResult :=
  fun _ => { id := "r1", status := .in_progress, output := none, error := none }

-- ===========================================================================
-- Helper lemmas
-- ===========================================================================

/-- round maps [0, 100] into [0, 100]. -/
lemma round_mem_range (q : ℚ) (h0 : 0 ≤ q) (h1 : q ≤ 100) :
    0 ≤ round q ∧ round q ≤ 100 := by
  rw [round_eq]
  constructor
  · exact Int.le_floor.2 (by push_cast; linarith)
  · have h : (⌊q + 1 / 2⌋ : ℤ) < 101 := Int.floor_lt.2 (by push_cast; linarith)
    omega

lemma employeeScoreOf_range (c : ℕ) :
    0 ≤ employeeScoreOf c ∧ employeeScoreOf c ≤ 100 := by
  unfold employeeScoreOf
  split_ifs with h1 h2 h3
  · have hc5 : (5 : ℚ) ≤ c := by exact_mod_cast h1.1
    have hc50 : (c : ℚ) ≤ 50 := by exact_mod_cast h1.2
    rcases abs_cases ((c : ℚ) - 25) with ⟨he, _⟩ | ⟨he, _⟩ <;> rw [he] <;>
      constructor <;> linarith
  · constructor <;> norm_num
  · have hlo : (1 : ℚ) ≤ c := by exact_mod_cast h3.1
    have hhi : (c : ℚ) ≤ 4 := by exact_mod_cast Nat.le_of_lt_succ h3.2
    constructor <;> linarith
  · constructor <;> norm_num

lemma fleetScoreOf_range (f : ℕ) :
    0 ≤ fleetScoreOf f ∧ fleetScoreOf f ≤ 100 := by
  unfold fleetScoreOf
  split_ifs with h1 h2 h3
  · have hlo : (3 : ℚ) ≤ f := by exact_mod_cast h1.1
    have hhi : (f : ℚ) ≤ 20 := by exact_mod_cast h1.2
    rcases abs_cases ((f : ℚ) - 10) with ⟨he, _⟩ | ⟨he, _⟩ <;> rw [he] <;>
      constructor <;> linarith
  · constructor <;> norm_num
  · have hlo : (1 : ℚ) ≤ f := by exact_mod_cast h3.1
    have hhi : (f : ℚ) ≤ 2 := by exact_mod_cast Nat.le_of_lt_succ h3.2
    constructor <;> linarith
  · constructor <;> norm_num

lemma permitScoreOf_range (p : ℕ) :
    0 ≤ permitScoreOf p ∧ permitScoreOf p ≤ 100 := by
  unfold permitScoreOf
  split_ifs with h1 h2 h3 h4
  · constructor <;> norm_num
  · constructor <;> norm_num
  · constructor <;> norm_num
  · have hp : (0 : ℚ) < p := by exact_mod_cast h4
    constructor
    · exact le_min (by linarith) (by norm_num)
    · exact le_trans (min_le_right _ _) (by norm_num)
  · constructor <;> norm_num

lemma serviceAreaScoreOf_range (r : ℚ) :
    0 ≤ serviceAreaScoreOf r ∧ serviceAreaScoreOf r ≤ 100 := by
  unfold serviceAreaScoreOf
  split_ifs with h1 h2 h3
  · constructor <;> norm_num
  · constructor <;> norm_num
  · push_neg at h2
    have : r < 20 := by
      by_contra hc
      push_neg at hc
      exact absurd (h2 hc) (not_lt.2 (le_of_not_lt h3))
    constructor <;> linarith
  · constructor <;> norm_num

lemma websiteScoreOf_range (w : Bool) :
    0 ≤ websiteScoreOf w ∧ websiteScoreOf w ≤ 100 := by
  unfold websiteScoreOf; cases w <;> constructor <;> norm_num

lemma socialScoreOf_range (s : Bool) :
    0 ≤ socialScoreOf s ∧ socialScoreOf s ≤ 100 := by
  unfold socialScoreOf; cases s <;> constructor <;> norm_num

lemma reviewVolumeScoreOf_range (t : ℕ) :
    0 ≤ reviewVolumeScoreOf t ∧ reviewVolumeScoreOf t ≤ 100 := by
  unfold reviewVolumeScoreOf; split_ifs <;> constructor <;> norm_num

lemma seoScoreOf_range (w : Bool) :
    0 ≤ seoScoreOf w ∧ seoScoreOf w ≤ 100 := by
  unfold seoScoreOf; cases w <;> constructor <;> norm_num

lemma ownershipScoreOf_range (o : Option String) :
    0 ≤ ownershipScoreOf o ∧ ownershipScoreOf o ≤ 100 := by
  unfold ownershipScoreOf; split_ifs <;> constructor <;> norm_num

lemma ageScoreOf_range (y : ℤ) :
    0 ≤ ageScoreOf y ∧ ageScoreOf y ≤ 100 := by
  unfold ageScoreOf
  split_ifs with h1 h2 h3 h4 h5
  · constructor <;> norm_num
  · constructor <;> norm_num
  · constructor <;> norm_num
  · constructor <;> norm_num
  · have hy1 : (1 : ℚ) ≤ y := by exact_mod_cast h5
    have hy4 : (y : ℚ) ≤ 4 := by
      have : y ≤ 4 := by
        push_neg at h1 h2 h3 h4
        omega
      exact_mod_cast this
    constructor <;> linarith
  · constructor <;> norm_num

lemma nicheScoreOf_range (ns : List String) :
    0 ≤ nicheScoreOf ns ∧ nicheScoreOf ns ≤ 100 := by
  unfold nicheScoreOf; split_ifs <;> constructor <;> norm_num

lemma successionBase_range (s : Option String) :
    0 ≤ successionBase s ∧ successionBase s ≤ 100 := by
  unfold successionBase; split_ifs <;> constructor <;> norm_num

lemma ownerAgeFloor_range (a : Option ℕ) :
    0 ≤ ownerAgeFloor a ∧ ownerAgeFloor a ≤ 100 := by
  unfold ownerAgeFloor
  cases a with
  | none => constructor <;> norm_num
  | some n =>
    dsimp only
    split_ifs <;> constructor <;> norm_num

/-- The conditional raises of the succession scorer amount to a max with the
owner-age floor. -/
lemma successionScoreOf_eq_max (s : Option String) (a : Option ℕ) :
    successionScoreOf s a = max (successionBase s) (ownerAgeFloor a) := by
  have hb := (successionBase_range s).1
  unfold successionScoreOf ownerAgeFloor jsTruthyNat
  cases a with
  | none => simp [max_eq_left hb]
  | some n =>
    by_cases h0 : n = 0
    · simp [h0, max_eq_left hb]
    · by_cases h60 : 60 ≤ n
      · simp [h0, h60]
      · by_cases h55 : 55 ≤ n
        · simp [h0, h60, h55]
        · simp [h0, h60, h55, max_eq_left hb]

lemma successionScoreOf_range (s : Option String) (a : Option ℕ) :
    0 ≤ successionScoreOf s a ∧ successionScoreOf s a ≤ 100 := by
  rw [successionScoreOf_eq_max]
  exact ⟨le_trans (successionBase_range s).1 (le_max_left _ _),
    max_le (successionBase_range s).2 (ownerAgeFloor_range a).2⟩

lemma permitTrendScoreOf_range (t l : ℕ) :
    0 ≤ permitTrendScoreOf t l ∧ permitTrendScoreOf t l ≤ 100 := by
  unfold permitTrendScoreOf
  dsimp only
  split_ifs <;> constructor <;> norm_num

lemma reviewTrendScoreOf_range (r : ℚ) :
    0 ≤ reviewTrendScoreOf r ∧ reviewTrendScoreOf r ≤ 100 := by
  unfold reviewTrendScoreOf; split_ifs <;> constructor <;> norm_num

lemma calculateRevenueProxyScore_range (clock : Clock) (b : Business)
    (config : ScoringConfig) :
    0 ≤ (calculateRevenueProxyScore clock b config).score ∧
      (calculateRevenueProxyScore clock b config).score ≤ 100 := by
  have he := employeeScoreOf_range (employeeCountOf b)
  have hf := fleetScoreOf_range (fleetSizeOf b)
  have hp := permitScoreOf_range (recentPermitCount clock b)
  have hs := serviceAreaScoreOf_range (serviceRadiusOf b)
  have hsc : (calculateRevenueProxyScore clock b config).score =
      round ((0 : ℚ) + employeeScoreOf (employeeCountOf b) * 0.30
        + fleetScoreOf (fleetSizeOf b) * 0.25
        + permitScoreOf (recentPermitCount clock b) * 0.25
        + serviceAreaScoreOf (serviceRadiusOf b) * 0.20) := rfl
  rw [hsc]
  exact round_mem_range _ (by linarith [he.1, hf.1, hp.1, hs.1])
    (by linarith [he.2, hf.2, hp.2, hs.2])

lemma calculateOnlineWeaknessScore_range (b : Business) (config : ScoringConfig) :
    0 ≤ (calculateOnlineWeaknessScore b config).score ∧
      (calculateOnlineWeaknessScore b config).score ≤ 100 := by
  have hw := websiteScoreOf_range (jsTruthyStr b.website)
  have hso := socialScoreOf_range
    (jsTruthyStr b.facebookUrl || jsTruthyStr b.linkedinUrl || jsTruthyStr b.instagramUrl)
  have hr := reviewVolumeScoreOf_range (totalReviewsOf b)
  have hseo := seoScoreOf_range (jsTruthyStr b.website)
  have hsc : (calculateOnlineWeaknessScore b config).score =
      round ((0 : ℚ) + websiteScoreOf (jsTruthyStr b.website) * 0.30
        + socialScoreOf (jsTruthyStr b.facebookUrl || jsTruthyStr b.linkedinUrl ||
            jsTruthyStr b.instagramUrl) * 0.20
        + reviewVolumeScoreOf (totalReviewsOf b) * 0.30
        + seoScoreOf (jsTruthyStr b.website) * 0.20) := rfl
  rw [hsc]
  exact round_mem_range _ (by linarith [hw.1, hso.1, hr.1, hseo.1])
    (by linarith [hw.2, hso.2, hr.2, hseo.2])

lemma calculateAcquisitionFitScore_range (clock : Clock) (b : Business)
    (config : ScoringConfig) :
    0 ≤ (calculateAcquisitionFitScore clock b config).score ∧
      (calculateAcquisitionFitScore clock b config).score ≤ 100 := by
  have ho := ownershipScoreOf_range b.ownershipType
  have ha := ageScoreOf_range (yearsInBusinessOf clock b)
  have hn := nicheScoreOf_range b.niches
  have hs := successionScoreOf_range b.successionStatus b.ownerAge
  have hsc : (calculateAcquisitionFitScore clock b config).score =
      round ((0 : ℚ) + ownershipScoreOf b.ownershipType * 0.30
        + ageScoreOf (yearsInBusinessOf clock b) * 0.25
        + nicheScoreOf b.niches * 0.25
        + successionScoreOf b.successionStatus b.ownerAge * 0.20) := rfl
  rw [hsc]
  exact round_mem_range _ (by linarith [ho.1, ha.1, hn.1, hs.1])
    (by linarith [ho.2, ha.2, hn.2, hs.2])

lemma calculateGrowthSignalsScore_range (clock : Clock) (b : Business)
    (config : ScoringConfig) :
    0 ≤ (calculateGrowthSignalsScore clock b config).score ∧
      (calculateGrowthSignalsScore clock b config).score ≤ 100 := by
  have hp := permitTrendScoreOf_range (permitCountInYear b clock.year)
    (permitCountInYear b (clock.year - 1))
  have hr := reviewTrendScoreOf_range (avgRatingOf b)
  have hsc : (calculateGrowthSignalsScore clock b config).score =
      round ((0 : ℚ) + permitTrendScoreOf (permitCountInYear b clock.year)
          (permitCountInYear b (clock.year - 1)) * 0.35
        + reviewTrendScoreOf (avgRatingOf b) * 0.25
        + 60 * 0.25 + 60 * 0.15) := rfl
  rw [hsc]
  exact round_mem_range _ (by linarith [hp.1, hr.1]) (by linarith [hp.2, hr.2])

-- ===========================================================================
-- Claim theorems
-- ===========================================================================

/-- C1: for every Business and every ScoringConfig, the overall score equals
round of the sum of the four rounded component scores weighted by the
config's four top-level weights, and the Score's stored component fields are
exactly those rounded component scores. -/
theorem overallScore_weighted_sum (clock : Clock) (businessId : String)
    (b : Business) (config : ScoringConfig) :
    (calculateScore clock businessId b config).overallScore =
      round (((calculateRevenueProxyScore clock b config).score : ℚ) * config.weights.revenueProxy
        + ((calculateOnlineWeaknessScore b config).score : ℚ) * config.weights.onlineWeakness
        + ((calculateAcquisitionFitScore clock b config).score : ℚ) * config.weights.acquisitionFit
        + ((calculateGrowthSignalsScore clock b config).score : ℚ) * config.weights.growthSignals)
    ∧ (calculateScore clock businessId b config).revenueProxyScore =
        (calculateRevenueProxyScore clock b config).score
    ∧ (calculateScore clock businessId b config).onlineWeaknessScore =
        (calculateOnlineWeaknessScore b config).score
    ∧ (calculateScore clock businessId b config).acquisitionFitScore =
        (calculateAcquisitionFitScore clock b config).score
    ∧ (calculateScore clock businessId b config).growthSignalsScore =
        (calculateGrowthSignalsScore clock b config).score :=
  ⟨rfl, rfl, rfl, rfl, rfl⟩

/-- C2: getRecommendation is a successive inclusive threshold comparison,
most restrictive first, and the default thresholds are 75/50/25, so a score
of exactly 75 yields HIGH_PRIORITY under the default config. -/
theorem getRecommendation_thresholds (score : ℚ) (config : ScoringConfig) :
    (config.thresholds.highPriority ≤ score →
      getRecommendation score config = .HIGH_PRIORITY)
    ∧ (score < config.thresholds.highPriority →
        config.thresholds.mediumPriority ≤ score →
        getRecommendation score config = .MEDIUM_PRIORITY)
    ∧ (score < config.thresholds.highPriority →
        score < config.thresholds.mediumPriority →
        config.thresholds.lowPriority ≤ score →
        getRecommendation score config = .LOW_PRIORITY)
    ∧ (score < config.thresholds.highPriority →
        score < config.thresholds.mediumPriority →
        score < config.thresholds.lowPriority →
        getRecommendation score config = .NOT_RECOMMENDED)
    ∧ (DEFAULT_SCORING_CONFIG.thresholds.highPriority = 75
        ∧ DEFAULT_SCORING_CONFIG.thresholds.mediumPriority = 50
        ∧ DEFAULT_SCORING_CONFIG.thresholds.lowPriority = 25
        ∧ getRecommendation 75 DEFAULT_SCORING_CONFIG = .HIGH_PRIORITY) := by
  refine ⟨?_, ?_, ?_, ?_, rfl, rfl, rfl, by decide⟩
  · intro h
    unfold getRecommendation
    rw [if_pos h]
  · intro h1 h2
    unfold getRecommendation
    rw [if_neg (not_le.2 h1), if_pos h2]
  · intro h1 h2 h3
    unfold getRecommendation
    rw [if_neg (not_le.2 h1), if_neg (not_le.2 h2), if_pos h3]
  · intro h1 h2 h3
    unfold getRecommendation
    rw [if_neg (not_le.2 h1), if_neg (not_le.2 h2), if_neg (not_le.2 h3)]

/-- Witness for C2 at concrete scores under the default config. -/
theorem getRecommendation_thresholds_witness :
    getRecommendation 75 DEFAULT_SCORING_CONFIG = .HIGH_PRIORITY
    ∧ getRecommendation 60 DEFAULT_SCORING_CONFIG = .MEDIUM_PRIORITY
    ∧ getRecommendation 30 DEFAULT_SCORING_CONFIG = .LOW_PRIORITY
    ∧ getRecommendation 10 DEFAULT_SCORING_CONFIG = .NOT_RECOMMENDED :=
  ⟨(getRecommendation_thresholds 75 DEFAULT_SCORING_CONFIG).1 (by decide),
   (getRecommendation_thresholds 60 DEFAULT_SCORING_CONFIG).2.1 (by decide) (by decide),
   (getRecommendation_thresholds 30 DEFAULT_SCORING_CONFIG).2.2.1 (by decide) (by decide)
     (by decide),
   (getRecommendation_thresholds 10 DEFAULT_SCORING_CONFIG).2.2.2.1 (by decide) (by decide)
     (by decide)⟩

/-- C3: for every Business (in particular one with every optional field
absent) and every scoring-time clock, each of the four component scores and
the overall score under the default config is an integer in [0, 100]. -/
theorem scores_in_range (clock : Clock) (businessId : String) (b : Business) :
    (0 ≤ (calculateRevenueProxyScore clock b DEFAULT_SCORING_CONFIG).score
      ∧ (calculateRevenueProxyScore clock b DEFAULT_SCORING_CONFIG).score ≤ 100)
    ∧ (0 ≤ (calculateOnlineWeaknessScore b DEFAULT_SCORING_CONFIG).score
      ∧ (calculateOnlineWeaknessScore b DEFAULT_SCORING_CONFIG).score ≤ 100)
    ∧ (0 ≤ (calculateAcquisitionFitScore clock b DEFAULT_SCORING_CONFIG).score
      ∧ (calculateAcquisitionFitScore clock b DEFAULT_SCORING_CONFIG).score ≤ 100)
    ∧ (0 ≤ (calculateGrowthSignalsScore clock b DEFAULT_SCORING_CONFIG).score
      ∧ (calculateGrowthSignalsScore clock b DEFAULT_SCORING_CONFIG).score ≤ 100)
    ∧ (0 ≤ (calculateScore clock businessId b DEFAULT_SCORING_CONFIG).overallScore
      ∧ (calculateScore clock businessId b DEFAULT_SCORING_CONFIG).overallScore ≤ 100) := by
  have h1 := calculateRevenueProxyScore_range clock b DEFAULT_SCORING_CONFIG
  have h2 := calculateOnlineWeaknessScore_range b DEFAULT_SCORING_CONFIG
  have h3 := calculateAcquisitionFitScore_range clock b DEFAULT_SCORING_CONFIG
  have h4 := calculateGrowthSignalsScore_range clock b DEFAULT_SCORING_CONFIG
  refine ⟨h1, h2, h3, h4, ?_⟩
  have hov : (calculateScore clock businessId b DEFAULT_SCORING_CONFIG).overallScore =
      round (((calculateRevenueProxyScore clock b DEFAULT_SCORING_CONFIG).score : ℚ) * 0.30
        + ((calculateOnlineWeaknessScore b DEFAULT_SCORING_CONFIG).score : ℚ) * 0.25
        + ((calculateAcquisitionFitScore clock b DEFAULT_SCORING_CONFIG).score : ℚ) * 0.25
        + ((calculateGrowthSignalsScore clock b DEFAULT_SCORING_CONFIG).score : ℚ) * 0.20) := rfl
  rw [hov]
  have c1l : (0 : ℚ) ≤ ((calculateRevenueProxyScore clock b DEFAULT_SCORING_CONFIG).score : ℚ) :=
    by exact_mod_cast h1.1
  have c1u : ((calculateRevenueProxyScore clock b DEFAULT_SCORING_CONFIG).score : ℚ) ≤ 100 :=
    by exact_mod_cast h1.2
  have c2l : (0 : ℚ) ≤ ((calculateOnlineWeaknessScore b DEFAULT_SCORING_CONFIG).score : ℚ) :=
    by exact_mod_cast h2.1
  have c2u : ((calculateOnlineWeaknessScore b DEFAULT_SCORING_CONFIG).score : ℚ) ≤ 100 :=
    by exact_mod_cast h2.2
  have c3l : (0 : ℚ) ≤ ((calculateAcquisitionFitScore clock b DEFAULT_SCORING_CONFIG).score : ℚ) :=
    by exact_mod_cast h3.1
  have c3u : ((calculateAcquisitionFitScore clock b DEFAULT_SCORING_CONFIG).score : ℚ) ≤ 100 :=
    by exact_mod_cast h3.2
  have c4l : (0 : ℚ) ≤ ((calculateGrowthSignalsScore clock b DEFAULT_SCORING_CONFIG).score : ℚ) :=
    by exact_mod_cast h4.1
  have c4u : ((calculateGrowthSignalsScore clock b DEFAULT_SCORING_CONFIG).score : ℚ) ≤ 100 :=
    by exact_mod_cast h4.2
  exact round_mem_range _ (by linarith) (by linarith)

/-- C4 counterexample: the lowercased tag of a business with niches
containing exactly "Commercial Refrigeration" has the premium niche
"refrigeration" as a substring, so the claim's substring rule would score
100, but the source's exact-membership test scores 80. -/
theorem nicheScore_substring_claim_false :
    "refrigeration".toList <:+: (jsToLowerCase "Commercial Refrigeration").toList
    ∧ "refrigeration" ∈ premiumNiches
    ∧ nicheScoreOf ["Commercial Refrigeration"] = 80
    ∧ (80 : ℚ) ≠ 100 := by
  refine ⟨⟨"commercial ".toList, [], by decide⟩, by decide, by decide, by norm_num⟩

/-- C4 amended: the niche factor scores 100 when some tag, lowercased, is
exactly one of the premium niches; 80 for a non-empty niche list with no
such exact match (so a tag merely containing a premium niche as a proper
substring, like Commercial Refrigeration, scores 80); and 50 for an empty
list. -/
theorem nicheScoreOf_exact_match_spec (niches : List String) :
    (niches.any (fun n => premiumNiches.contains (jsToLowerCase n)) = true →
      nicheScoreOf niches = 100)
    ∧ (niches ≠ [] →
        niches.any (fun n => premiumNiches.contains (jsToLowerCase n)) = false →
        nicheScoreOf niches = 80)
    ∧ (niches = [] → nicheScoreOf niches = 50)
    ∧ nicheScoreOf ["Commercial Refrigeration"] = 80 := by
  refine ⟨?_, ?_, ?_, by decide⟩
  · intro h
    unfold nicheScoreOf
    have hlen : niches.length > 0 := by
      cases niches with
      | nil => simp at h
      | cons x xs => simp
    rw [if_pos hlen, if_pos h]
  · intro hne h
    unfold nicheScoreOf
    have hlen : niches.length > 0 := List.length_pos.2 hne
    rw [if_pos hlen, if_neg (by rw [h]; exact Bool.false_ne_true)]
  · intro h
    subst h
    rfl

/-- Witness for C4's amended theorem at concrete niche lists. -/
theorem nicheScoreOf_exact_match_spec_witness :
    nicheScoreOf ["Refrigeration"] = 100
    ∧ nicheScoreOf ["duct_cleaning"] = 80
    ∧ nicheScoreOf [] = 50 :=
  ⟨(nicheScoreOf_exact_match_spec ["Refrigeration"]).1 (by decide),
   (nicheScoreOf_exact_match_spec ["duct_cleaning"]).2.1 (by decide) (by decide),
   (nicheScoreOf_exact_match_spec []).2.2.1 rfl⟩

/-- C5: the succession factor score is the status-derived base combined by
max with the owner-age floor (85 for age 60 and above, 70 for ages 55-59),
the base values are those of the source, and adding an owner age to an
otherwise identical input never lowers the score. -/
theorem successionScoreOf_max_monotone (status : Option String) (ownerAge : Option ℕ) :
    successionScoreOf status ownerAge = max (successionBase status) (ownerAgeFloor ownerAge)
    ∧ successionBase (some "OWNER_RETIRING") = 100
    ∧ successionBase (some "NO_SUCCESSOR") = 90
    ∧ successionBase (some "SUCCESSION_PLANNED") = 40
    ∧ successionBase (some "RECENTLY_TRANSITIONED") = 20
    ∧ successionBase none = 50
    ∧ (∀ a : ℕ, successionScoreOf status none ≤ successionScoreOf status (some a)) := by
  refine ⟨successionScoreOf_eq_max status ownerAge, by decide, by decide, by decide,
    by decide, by decide, ?_⟩
  intro a
  rw [successionScoreOf_eq_max, successionScoreOf_eq_max]
  have hnone : ownerAgeFloor none = 0 := rfl
  rw [hnone]
  exact max_le_max (le_refl _) (ownerAgeFloor_range (some a)).1

/-- C6: two configs that agree on the four top-level weights and the three
thresholds yield identical component scores, overall score, recommendation
and breakdown (factor weights included), no matter how their factor weight
tables differ: the component scorers never read the config. -/
theorem scoring_ignores_factor_tables (clock : Clock) (businessId : String)
    (b : Business) (c1 c2 : ScoringConfig)
    (hw : c1.weights = c2.weights) (ht : c1.thresholds = c2.thresholds) :
    (calculateScore clock businessId b c1).revenueProxyScore =
      (calculateScore clock businessId b c2).revenueProxyScore
    ∧ (calculateScore clock businessId b c1).onlineWeaknessScore =
        (calculateScore clock businessId b c2).onlineWeaknessScore
    ∧ (calculateScore clock businessId b c1).acquisitionFitScore =
        (calculateScore clock businessId b c2).acquisitionFitScore
    ∧ (calculateScore clock businessId b c1).growthSignalsScore =
        (calculateScore clock businessId b c2).growthSignalsScore
    ∧ (calculateScore clock businessId b c1).overallScore =
        (calculateScore clock businessId b c2).overallScore
    ∧ (calculateScore clock businessId b c1).recommendation =
        (calculateScore clock businessId b c2).recommendation
    ∧ (calculateScore clock businessId b c1).breakdown =
        (calculateScore clock businessId b c2).breakdown := by
  have h1 : calculateRevenueProxyScore clock b c1 = calculateRevenueProxyScore clock b c2 := rfl
  have h2 : calculateOnlineWeaknessScore b c1 = calculateOnlineWeaknessScore b c2 := rfl
  have h3 : calculateAcquisitionFitScore clock b c1 = calculateAcquisitionFitScore clock b c2 := rfl
  have h4 : calculateGrowthSignalsScore clock b c1 = calculateGrowthSignalsScore clock b c2 := rfl
  have hov : (calculateScore clock businessId b c1).overallScore =
      (calculateScore clock businessId b c2).overallScore := by
    show round _ = round _
    rw [h1, h2, h3, h4, hw]
  refine ⟨congrArg ComponentScore.score h1, congrArg ComponentScore.score h2,
    congrArg ComponentScore.score h3, congrArg ComponentScore.score h4,
    hov, ?_, ?_⟩
  · show getRecommendation _ c1 = getRecommendation _ c2
    unfold getRecommendation
    rw [ht, h1, h2, h3, h4, hw]
  · show ScoreBreakdown.mk _ _ _ _ = ScoreBreakdown.mk _ _ _ _
    rw [h1, h2, h3, h4]

/-- Witness for C6: the default config against one with all factor tables
replaced, on a concrete business. -/
theorem scoring_ignores_factor_tables_witness :
    (calculateScore exampleClock "a" {} DEFAULT_SCORING_CONFIG).overallScore =
      (calculateScore exampleClock "a" {} altFactorsConfig).overallScore
    ∧ (calculateScore exampleClock "a" {} DEFAULT_SCORING_CONFIG).breakdown =
        (calculateScore exampleClock "a" {} altFactorsConfig).breakdown :=
  ⟨(scoring_ignores_factor_tables exampleClock "a" {} DEFAULT_SCORING_CONFIG
      altFactorsConfig rfl rfl).2.2.2.2.1,
   (scoring_ignores_factor_tables exampleClock "a" {} DEFAULT_SCORING_CONFIG
      altFactorsConfig rfl rfl).2.2.2.2.2.2⟩

/-- C7 counterexample: after storing one business, the SCORING stage of the
pipeline invokes the scoring engine for no business at all, so the claim
that it scores every newly stored business fails already for a single
stored id. -/
theorem pipelineScoring_claim_false :
    "b1" ∈ ["b1"]
    ∧ "b1" ∉ (pipelineScoringPhase ["b1"]).scoringEngineCalls := by
  refine ⟨by decide, by decide⟩

/-- C7 amended: the SCORING stage makes no scoring-engine call for any
stored business; it records stats.scored as the number of stored ids and
publishes the SCORING (progress 90) and COMPLETE (progress 100) checkpoints
in that order. -/
theorem pipelineScoringPhase_spec (storedBusinessIds : List String) :
    (pipelineScoringPhase storedBusinessIds).scoringEngineCalls = []
    ∧ (pipelineScoringPhase storedBusinessIds).scoredStat = storedBusinessIds.length
    ∧ (pipelineScoringPhase storedBusinessIds).progressUpdates =
        [(PipelineStage.SCORING, 90), (PipelineStage.COMPLETE, 100)] :=
  ⟨rfl, rfl, rfl⟩

/-- C8: batch scoring returns exactly the successful scores of the input
ids, in input order (a sequential filterMap of the per-id scoring call),
and a failing id in the middle contributes nothing while the ids around it
are still scored. -/
theorem batchScoreBusinesses_spec (store : String → Option Business)
    (clock : Clock) (config : ScoringConfig) :
    (∀ ids : List String,
      batchScoreBusinesses store clock config ids =
        ids.filterMap (fun businessId =>
          (calculateBusinessScore store clock businessId config).toOption))
    ∧ (∀ (ids1 ids2 : List String) (bad : String),
        (calculateBusinessScore store clock bad config).toOption = none →
        batchScoreBusinesses store clock config (ids1 ++ bad :: ids2) =
          batchScoreBusinesses store clock config ids1 ++
            batchScoreBusinesses store clock config ids2) := by
  have hmain : ∀ ids : List String,
      batchScoreBusinesses store clock config ids =
        ids.filterMap (fun businessId =>
          (calculateBusinessScore store clock businessId config).toOption) := by
    intro ids
    induction ids with
    | nil => rfl
    | cons businessId rest ih =>
      simp only [batchScoreBusinesses, List.filterMap_cons]
      cases h : calculateBusinessScore store clock businessId config with
      | ok s => simp [Except.toOption, ih]
      | error e => simp [Except.toOption, ih]
  refine ⟨hmain, ?_⟩
  intro ids1 ids2 bad hbad
  rw [hmain, hmain, hmain, List.filterMap_append, List.filterMap_cons, hbad]

/-- Witness for C8: id b is absent from the store, ids a and c around it
are still scored, in order. -/
theorem batchScoreBusinesses_spec_witness :
    batchScoreBusinesses exampleStore exampleClock DEFAULT_SCORING_CONFIG ["a", "b", "c"] =
      batchScoreBusinesses exampleStore exampleClock DEFAULT_SCORING_CONFIG ["a"] ++
        batchScoreBusinesses exampleStore exampleClock DEFAULT_SCORING_CONFIG ["c"] :=
  (batchScoreBusinesses_spec exampleStore exampleClock DEFAULT_SCORING_CONFIG).2
    ["a"] ["c"] "b" (by rfl)

/-- C10: a Business founded in the current calendar year is scored by the
Acquisition Fit component exactly like one with no foundedYear: the whole
component output coincides, and its Business Age factor is the Unknown
factor with score 50 and explanation Age unknown, because the computed age
of 0 years is falsy. -/
theorem businessAge_currentYear_unknown (clock : Clock) (b : Business)
    (config : ScoringConfig) :
    calculateAcquisitionFitScore clock { b with foundedYear := some clock.year } config =
      calculateAcquisitionFitScore clock { b with foundedYear := none } config
    ∧ businessAgeFactor clock { b with foundedYear := some clock.year } =
        { name := "Business Age", value := .str "Unknown", score := 50, weight := 0.25,
          explanation := "Age unknown" }
    ∧ yearsInBusinessOf clock { b with foundedYear := some clock.year } = 0 := by
  have h0 : yearsInBusinessOf clock { b with foundedYear := some clock.year } = 0 := by
    unfold yearsInBusinessOf jsTruthyInt
    by_cases h : clock.year = 0
    · simp [h]
    · simp [h]
  have hfac : businessAgeFactor clock { b with foundedYear := some clock.year } =
      { name := "Business Age", value := .str "Unknown", score := 50, weight := 0.25,
        explanation := "Age unknown" } := by
    unfold businessAgeFactor
    rw [h0]
    rfl
  have hfacnone : businessAgeFactor clock { b with foundedYear := none } =
      { name := "Business Age", value := .str "Unknown", score := 50, weight := 0.25,
        explanation := "Age unknown" } := rfl
  refine ⟨?_, hfac, h0⟩
  unfold calculateAcquisitionFitScore
  rw [hfac.trans hfacnone.symm]
  rfl

/-- Along the loop, the elapsed and delay arguments at iteration k are
elapsedBefore k and delaySeq k; if no status check that happens strictly
before the deadline is terminal, every fuel value yields the timeout
result. -/
lemma waitLoop_timeout_of_no_terminal (poll : ℕ → ResearchResult) (rid : String)
    (maxW init maxD : ℚ)
    (h : ∀ j, elapsedBefore init maxD j < maxW → isTerminal (poll j) = false) :
    ∀ fuel k : ℕ,
      waitLoop poll rid maxW maxD (elapsedBefore init maxD k) (delaySeq init maxD k) k fuel =
        researchTimeoutResult rid := by
  intro fuel
  induction fuel with
  | zero => intro k; rfl
  | succ m ih =>
    intro k
    simp only [waitLoop]
    by_cases hk : elapsedBefore init maxD k < maxW
    · rw [if_pos hk, h k hk]
      simp only [Bool.false_eq_true, if_false]
      exact ih (k + 1)
    · rw [if_neg hk]

/-- If the first terminal status check is the n-th, every earlier check
happens before the deadline, the n-th does too, and the fuel exceeds n, the
loop returns that n-th poll result. -/
lemma waitLoop_returns_first_terminal (poll : ℕ → ResearchResult) (rid : String)
    (maxW init maxD : ℚ) :
    ∀ n k fuel : ℕ, n < fuel →
      (∀ j, j < n → isTerminal (poll (k + j)) = false) →
      (∀ j, j ≤ n → elapsedBefore init maxD (k + j) < maxW) →
      isTerminal (poll (k + n)) = true →
      waitLoop poll rid maxW maxD (elapsedBefore init maxD k) (delaySeq init maxD k) k fuel =
        poll (k + n) := by
  intro n
  induction n with
  | zero =>
    intro k fuel hfuel hbefore hel hterm
    cases fuel with
    | zero => omega
    | succ m =>
      simp only [waitLoop]
      rw [if_pos (by simpa using hel 0 (le_refl 0))]
      have hterm' : isTerminal (poll k) = true := by simpa using hterm
      rw [hterm']
      simp
  | succ n ih =>
    intro k fuel hfuel hbefore hel hterm
    cases fuel with
    | zero => omega
    | succ m =>
      simp only [waitLoop]
      have hk : elapsedBefore init maxD k < maxW := by simpa using hel 0 (by omega)
      rw [if_pos hk]
      have h0 : isTerminal (poll k) = false := by simpa using hbefore 0 (by omega)
      rw [h0]
      simp only [Bool.false_eq_true, if_false]
      have hrec := ih (k + 1) m (by omega)
        (fun j hj => by
          have hx := hbefore (j + 1) (by omega)
          rwa [show k + (j + 1) = k + 1 + j from by omega] at hx)
        (fun j hj => by
          have hx := hel (j + 1) (by omega)
          rwa [show k + (j + 1) = k + 1 + j from by omega] at hx)
        (by rwa [show k + (n + 1) = k + 1 + n from by omega] at hterm)
      rw [show k + (n + 1) = k + 1 + n from by omega]
      exact hrec

/-- C9: the polling loop sleeps delays that start at initialDelayMs, are
multiplied by 1.5 after each check and capped at maxDelayMs (defaults
5000 ms, 60000 ms, total wait 30 minutes); the first completed-or-failed
result observed before the deadline is returned immediately; and if no
check before the deadline is terminal the loop returns a failed result with
a timeout error and no output, for every iteration bound. -/
theorem waitForResearchCompletion_spec (poll : ℕ → ResearchResult) (rid : String)
    (maxW init maxD : ℚ) :
    (delaySeq init maxD 0 = init
      ∧ (∀ k, delaySeq init maxD (k + 1) = min (delaySeq init maxD k * (3/2)) maxD)
      ∧ (∀ k, delaySeq init maxD (k + 1) ≤ maxD))
    ∧ (defaultInitialDelayMs = 5000 ∧ defaultMaxDelayMs = 60000
        ∧ defaultMaxWaitMs = 30 * 60 * 1000)
    ∧ (∀ n fuel : ℕ, n < fuel →
        (∀ j, j < n → isTerminal (poll j) = false) →
        (∀ j, j ≤ n → elapsedBefore init maxD j < maxW) →
        isTerminal (poll n) = true →
        waitForResearchCompletion poll rid maxW init maxD fuel = poll n)
    ∧ (∀ fuel : ℕ,
        (∀ j, elapsedBefore init maxD j < maxW → isTerminal (poll j) = false) →
        waitForResearchCompletion poll rid maxW init maxD fuel =
          researchTimeoutResult rid)
    ∧ (researchTimeoutResult rid).status = .failed
    ∧ (researchTimeoutResult rid).output = none := by
  refine ⟨⟨rfl, fun k => rfl, fun k => min_le_right _ _⟩, ⟨rfl, rfl, rfl⟩, ?_, ?_, rfl, rfl⟩
  · intro n fuel hfuel hbefore hel hterm
    have hmain := waitLoop_returns_first_terminal poll rid maxW init maxD n 0 fuel hfuel
      (fun j hj => by simpa using hbefore j hj)
      (fun j hj => by simpa using hel j hj)
      (by simpa using hterm)
    simpa using hmain
  · intro fuel h
    exact waitLoop_timeout_of_no_terminal poll rid maxW init maxD h fuel 0

/-- Witness for C9: a poll that completes on its second check is returned
as-is, and an always-in-progress poll yields the timeout failure. -/
theorem waitForResearchCompletion_spec_witness :
    waitForResearchCompletion examplePoll "r1" 30000 5000 60000 5 =
      { id := "r1", status := .completed, output := some "done", error := none }
    ∧ waitForResearchCompletion examplePendingPoll "r1" 30000 5000 60000 9 =
        researchTimeoutResult "r1" := by
  constructor
  · have hx := (waitForResearchCompletion_spec examplePoll "r1" 30000 5000 60000).2.2.1
      1 5 (by norm_num) (by decide)
      (by
        intro j hj
        interval_cases j <;> norm_num [elapsedBefore, delaySeq])
      (by decide)
    rw [hx]
    rfl
  · exact (waitForResearchCompletion_spec examplePendingPoll "r1" 30000 5000 60000).2.2.2.1
      9 (fun j hj => rfl)
